import Mathlib

/-!
Shallow embedding of the scoring/feedback core of `src/lib/resumeParser.ts`
(resume parsing, job/resume match scoring, profile-completeness scoring),
together with theorems checking the natural-language specification against it.

Strings are modelled by Lean `String` (a list of characters).  JavaScript
string primitives used by the source (`toLowerCase`, `includes`, `trim`,
`split`, `join`, `Math.round`, `Math.min`/`max`, array `slice`, `Set`
deduplication) are embedded below; numeric score arithmetic is carried out
in `ℚ` with an explicit half-up rounding to `ℤ`, mirroring the source's
idealized arithmetic.  The character-class fragments of the metric regular
expressions are modelled over the ASCII range exercised by the vocabulary
and the inputs of interest.
-/

/-- JS `needle ⊆ hay` contiguous-substring test (`String.prototype.includes`),
on character lists: true iff `needle` occurs contiguously in `hay`. -/
def strContains (hay needle : List Char) : Bool :=
  match hay with
  | [] => needle.isEmpty
  | _ :: t => needle.isPrefixOf hay || strContains t needle

/-- JS `hay.includes(needle)` on strings. -/
def jsIncludes (hay needle : String) : Bool :=
  strContains hay.data needle.data

/-- JS `s.toLowerCase()` (ASCII fragment, which covers every vocabulary term). -/
def jsToLower (s : String) : String :=
  ⟨s.data.map Char.toLower⟩

/-- Whitespace recognized by JS `trim` / `\s` (ASCII fragment). -/
def isJsSpace (c : Char) : Bool :=
  c = ' ' || c = '\t' || c = '\n' || c = '\r' || c = '\x0b' || c = '\x0c'

/-- JS `s.trim()`. -/
def jsTrim (s : String) : String :=
  ⟨((s.data.dropWhile isJsSpace).reverse.dropWhile isJsSpace).reverse⟩

/-- JS `Math.round` on exact rationals: round half up. -/
def jsRound (q : ℚ) : ℤ :=
  Int.floor (q + 1/2)

/-- JS `[...new Set(l)]`: deduplicate keeping first occurrences, preserving order. -/
def setDedup (l : List String) : List String :=
  l.foldl (fun acc x => if x ∈ acc then acc else acc ++ [x]) []

/-! ## Vocabulary tables (`TECH_SKILLS`, `ACTION_VERBS`, and the keyword /
section / certification term lists of `resumeParser.ts`) -/

def TECH_SKILLS : List String := [
  "javascript", "typescript", "python", "java", "c++", "c#", "go", "rust", "ruby", "php", "swift", "kotlin",
  "react", "angular", "vue", "svelte", "next.js", "node.js", "express", "django", "flask", "fastapi", "spring",
  "aws", "azure", "gcp", "docker", "kubernetes", "terraform", "jenkins", "ci/cd", "devops",
  "sql", "postgresql", "mysql", "mongodb", "redis", "elasticsearch", "graphql", "rest api",
  "machine learning", "deep learning", "tensorflow", "pytorch", "scikit-learn", "nlp", "computer vision",
  "git", "agile", "scrum", "jira", "confluence", "figma", "sketch",
  "html", "css", "sass", "tailwind", "bootstrap", "webpack", "vite",
  "testing", "jest", "cypress", "selenium", "unit testing", "integration testing",
  "microservices", "api design", "system design", "distributed systems", "scalability",
  "data analysis", "data visualization", "tableau", "power bi", "excel", "pandas", "numpy",
  "leadership", "management", "communication", "problem-solving", "teamwork", "collaboration"]

def ACTION_VERBS : List String := [
  "achieved", "built", "created", "delivered", "developed", "designed", "established",
  "generated", "implemented", "improved", "increased", "launched", "led", "managed",
  "optimized", "reduced", "resolved", "scaled", "spearheaded", "streamlined", "transformed"]

/-- The secondary job-term vocabulary local to `extractKeywordsFromText`. -/
def JOB_TERMS : List String := [
  "remote", "hybrid", "onsite", "full-time", "contract",
  "senior", "junior", "lead", "principal", "staff", "manager",
  "startup", "enterprise", "b2b", "b2c", "saas",
  "cross-functional", "stakeholder", "roadmap", "strategy",
  "analytics", "metrics", "kpi", "okr", "roi"]

def EXPERIENCE_INDICATORS : List String :=
  ["experience", "work history", "employment", "professional background"]

def EDUCATION_KEYWORDS : List String :=
  ["bachelor", "master", "phd", "degree", "university", "college", "certification", "certified"]

def CERT_KEYWORDS : List String :=
  ["aws certified", "google certified", "microsoft certified", "pmp", "scrum master", "cissp", "cka", "ckad"]

/-! ## The metric patterns (`METRICS_PATTERNS`)

Each entry of `METRICS_PATTERNS` is embedded as a match-at-position
function: given the remaining text it returns the matched span and the
rest, or `none`.  `text.match(re)` with the global flag collects the
leftmost non-overlapping matches in order; since no pattern can match the
empty string, that is exactly the `scanAll` scan below.  Greediness of
`\d+`, `[\d,]+`, `\+?` and `\s*` collapses to maximal-munch here because
no shorter munch can ever let the required follow-up character match. -/

/-- Pattern `/\d+%/g` : one or more digits followed by a percent sign. -/
def matchPct (s : List Char) : Option (List Char × List Char) :=
  let ds := s.takeWhile Char.isDigit
  let rest := s.dropWhile Char.isDigit
  if ds.isEmpty then none
  else
    match rest with
    | '%' :: r => some (ds ++ ['%'], r)
    | _ => none

/-- Pattern `/\$[\d,]+/g` : a dollar sign followed by one or more digits or commas. -/
def matchDollar (s : List Char) : Option (List Char × List Char) :=
  match s with
  | '$' :: rest =>
    let ds := rest.takeWhile (fun c => c.isDigit || c = ',')
    if ds.isEmpty then none
    else some ('$' :: ds, rest.dropWhile (fun c => c.isDigit || c = ','))
  | _ => none

/-- Pattern `/\d+x/g` : digits followed by a literal lowercase `x` (case-SENSITIVE:
this pattern carries no `i` flag in the source). -/
def matchMult (s : List Char) : Option (List Char × List Char) :=
  let ds := s.takeWhile Char.isDigit
  if ds.isEmpty then none
  else
    match s.dropWhile Char.isDigit with
    | 'x' :: r => some (ds ++ ['x'], r)
    | _ => none

/-- Case-insensitive (ASCII) prefix test, for the `i`-flagged word alternations. -/
def icIsPrefixOf : List Char → List Char → Bool
  | [], _ => true
  | _ :: _, [] => false
  | a :: as, b :: bs => (a.toLower == b.toLower) && icIsPrefixOf as bs

/-- Pattern `/\d+\+?\s*(w1|w2|...)/gi` : digits, an optional plus, optional whitespace,
then one of the given words matched case-insensitively (first alternative wins,
as in ordered regex alternation).  The matched span keeps the original casing. -/
def matchNumWord (words : List String) (s : List Char) : Option (List Char × List Char) :=
  let ds := s.takeWhile Char.isDigit
  if ds.isEmpty then none
  else
    let s1 := s.dropWhile Char.isDigit
    let pr : List Char × List Char :=
      match s1 with
      | '+' :: r => (['+'], r)
      | _ => ([], s1)
    let ws := pr.2.takeWhile isJsSpace
    let s3 := pr.2.dropWhile isJsSpace
    match words.find? (fun w => icIsPrefixOf w.data s3) with
    | some w => some (ds ++ pr.1 ++ ws ++ s3.take w.data.length, s3.drop w.data.length)
    | none => none

/-- Collect all leftmost non-overlapping matches of a pattern, attempting the
pattern at every position and resuming after each match (the behaviour of
`text.match(re)` with the `g` flag for patterns that cannot match the empty
string).  `fuel` is initialized to the text length, which suffices because
every successful match consumes at least one character. -/
def scanAll (matchAt : List Char → Option (List Char × List Char)) :
    Nat → List Char → List (List Char)
  | 0, _ => []
  | _, [] => []
  | Nat.succ fuel, c :: rest =>
    match matchAt (c :: rest) with
    | some (m, rest1) => m :: scanAll matchAt fuel rest1
    | none => scanAll matchAt fuel rest

/-- All matches of one pattern in `text`, as strings. -/
def matchesOf (matchAt : List Char → Option (List Char × List Char)) (text : String) :
    List String :=
  (scanAll matchAt text.data.length text.data).map fun l => ⟨l⟩

/-- The metrics sequence: all matches of each of the six `METRICS_PATTERNS`
in source order, concatenated (duplicates across patterns preserved).
The scan runs over the ORIGINAL-case text, as in the source. -/
def extractMetrics (text : String) : List String :=
  matchesOf matchPct text ++ matchesOf matchDollar text ++ matchesOf matchMult text
    ++ matchesOf (matchNumWord ["users", "customers", "clients", "employees", "team members"]) text
    ++ matchesOf (matchNumWord ["years", "months"]) text
    ++ matchesOf (matchNumWord ["projects", "applications", "systems", "features"]) text

/-! ## `parseResumeText` -/

structure ParsedResume where
  rawText : String
  skills : List String
  experience : List String
  education : List String
  certifications : List String
  keywords : List String
  metrics : List String
  deriving DecidableEq, Repr

/-- The skills filter of `parseResumeText` (vocabulary order preserved). -/
def skillsOfText (lowerText : String) : List String :=
  TECH_SKILLS.filter fun skill => jsIncludes lowerText (jsToLower skill)

def parseResumeText (text : String) : ParsedResume :=
  let lowerText := jsToLower text
  let skills := skillsOfText lowerText
  { rawText := text
    skills := skills
    experience := EXPERIENCE_INDICATORS.filter fun indicator => jsIncludes lowerText indicator
    education := EDUCATION_KEYWORDS.filter fun edu => jsIncludes lowerText edu
    certifications := CERT_KEYWORDS.filter fun cert => jsIncludes lowerText cert
    keywords := skills ++ ACTION_VERBS.filter fun verb => jsIncludes lowerText (jsToLower verb)
    metrics := extractMetrics text }

/-! ## `extractKeywordsFromText` -/

def extractKeywordsFromText (text : String) : List String :=
  setDedup
    ((TECH_SKILLS.filter fun skill => jsIncludes text (jsToLower skill))
      ++ (JOB_TERMS.filter fun term => jsIncludes text (jsToLower term)))

/-! ## `analyzeResumeForJob` (the Match Scorer)

Each local of the source function is embedded as a named definition so
that the claim theorems can speak about the intermediate quantities; the
final function assembles them into the returned record exactly as the
source's return statement does. -/

structure ResumeAnalysis where
  resumeScore : ℤ
  matchingKeywords : List String
  missingKeywords : List String
  matchingSkills : List String
  missingSkills : List String
  strengthsFound : List String
  improvementAreas : List String
  metricsSuggestions : List String
  keywordDensity : ℤ
  overallFeedback : String
  deriving DecidableEq, Repr

/-- Local `jobText`: title, description and space-joined requirements, lowercased. -/
def jobTextOf (jobTitle jobDescription : String) (jobRequirements : List String) : String :=
  jsToLower (jobTitle ++ " " ++ jobDescription ++ " " ++ String.intercalate " " jobRequirements)

/-- Local `resumeText`: the raw resume text, lowercased. -/
def resumeTextOf (resume : ParsedResume) : String :=
  jsToLower resume.rawText

/-- Local `jobSkills`: skill-vocabulary terms present in the job text. -/
def jobSkillsOf (jobTitle jobDescription : String) (jobRequirements : List String) : List String :=
  TECH_SKILLS.filter fun skill =>
    jsIncludes (jobTextOf jobTitle jobDescription jobRequirements) (jsToLower skill)

/-- Local `matchingSkills` (before the `Set` dedup of the return statement). -/
def matchingSkillsOf (resume : ParsedResume) (jobTitle jobDescription : String)
    (jobRequirements : List String) : List String :=
  resume.skills.filter fun skill =>
    (jobSkillsOf jobTitle jobDescription jobRequirements).any fun js =>
      jsToLower js == jsToLower skill

/-- Local `missingSkills` (before dedup and the cap of the return statement). -/
def missingSkillsOf (resume : ParsedResume) (jobTitle jobDescription : String)
    (jobRequirements : List String) : List String :=
  (jobSkillsOf jobTitle jobDescription jobRequirements).filter fun skill =>
    !(resume.skills.any fun rs => jsToLower rs == jsToLower skill)

def jobKeywordsOf (jobTitle jobDescription : String) (jobRequirements : List String) : List String :=
  extractKeywordsFromText (jobTextOf jobTitle jobDescription jobRequirements)

def resumeKeywordsOf (resume : ParsedResume) : List String :=
  extractKeywordsFromText (resumeTextOf resume)

/-- Local `matchingKeywords` (before the `Set` dedup and cap of the return statement). -/
def matchingKeywordsOf (resume : ParsedResume) (jobTitle jobDescription : String)
    (jobRequirements : List String) : List String :=
  (resumeKeywordsOf resume).filter fun kw =>
    (jobKeywordsOf jobTitle jobDescription jobRequirements).any fun jk =>
      jsToLower jk == jsToLower kw

/-- Local `missingKeywords`: job keywords absent from the resume keywords,
already truncated to 8 at its definition site (line 148). -/
def missingKeywordsOf (resume : ParsedResume) (jobTitle jobDescription : String)
    (jobRequirements : List String) : List String :=
  ((jobKeywordsOf jobTitle jobDescription jobRequirements).filter fun kw =>
    !((resumeKeywordsOf resume).any fun rk => jsToLower rk == jsToLower kw)).take 8

/-- Local `skillMatchRatio`. -/
def skillMatchRatioOf (resume : ParsedResume) (jobTitle jobDescription : String)
    (jobRequirements : List String) : ℚ :=
  if 0 < (jobSkillsOf jobTitle jobDescription jobRequirements).length then
    ((matchingSkillsOf resume jobTitle jobDescription jobRequirements).length : ℚ)
      / ((jobSkillsOf jobTitle jobDescription jobRequirements).length : ℚ)
  else 1/2

/-- Local `keywordMatchRatio`. -/
def keywordMatchRatioOf (resume : ParsedResume) (jobTitle jobDescription : String)
    (jobRequirements : List String) : ℚ :=
  if 0 < (jobKeywordsOf jobTitle jobDescription jobRequirements).length then
    ((matchingKeywordsOf resume jobTitle jobDescription jobRequirements).length : ℚ)
      / ((jobKeywordsOf jobTitle jobDescription jobRequirements).length : ℚ)
  else 1/2

/-- Local `hasActionVerbs`: some action verb occurs in the lowercased resume text. -/
def hasActionVerbsOf (resume : ParsedResume) : Bool :=
  ACTION_VERBS.any fun verb => jsIncludes (resumeTextOf resume) verb

/-- The `Math.round(...)` of the weighted sum (line 161, before clamping). -/
def rawResumeScoreOf (resume : ParsedResume) (jobTitle jobDescription : String)
    (jobRequirements : List String) : ℤ :=
  jsRound
    (skillMatchRatioOf resume jobTitle jobDescription jobRequirements * 40
      + keywordMatchRatioOf resume jobTitle jobDescription jobRequirements * 30
      + (if 0 < resume.metrics.length then 15 else 0)
      + (if hasActionVerbsOf resume then 10 else 0)
      + (if 0 < resume.certifications.length then 5 else 0))

/-- Local `resumeScore` after the clamp of line 170. -/
def resumeScoreOf (resume : ParsedResume) (jobTitle jobDescription : String)
    (jobRequirements : List String) : ℤ :=
  max 0 (min 100 (rawResumeScoreOf resume jobTitle jobDescription jobRequirements))

/-- The `strengthsFound` candidates, in source order (capped on return). -/
def strengthsFoundOf (resume : ParsedResume) (jobTitle jobDescription : String)
    (jobRequirements : List String) : List String :=
  (if 3 ≤ (matchingSkillsOf resume jobTitle jobDescription jobRequirements).length then
    ["Strong technical skill alignment ("
      ++ toString (matchingSkillsOf resume jobTitle jobDescription jobRequirements).length
      ++ " matching skills)"] else [])
  ++ (if 2 ≤ resume.metrics.length then
    ["Good use of quantifiable metrics and achievements"] else [])
  ++ (if hasActionVerbsOf resume then
    ["Effective use of action verbs to describe accomplishments"] else [])
  ++ (if 0 < resume.certifications.length then
    ["Relevant certifications found (" ++ String.intercalate ", " resume.certifications ++ ")"] else [])
  ++ (if 5 ≤ (matchingKeywordsOf resume jobTitle jobDescription jobRequirements).length then
    ["Strong keyword alignment with job description"] else [])

/-- The `improvementAreas` candidates, in source order (capped on return). -/
def improvementAreasOf (resume : ParsedResume) (jobTitle jobDescription : String)
    (jobRequirements : List String) : List String :=
  (if 0 < (missingSkillsOf resume jobTitle jobDescription jobRequirements).length then
    ["Add these in-demand skills if you have them: "
      ++ String.intercalate ", " ((missingSkillsOf resume jobTitle jobDescription jobRequirements).take 4)]
   else [])
  ++ (if resume.metrics.length < 2 then
    ["Include more quantifiable achievements (percentages, dollar amounts, user counts)"] else [])
  ++ (if !hasActionVerbsOf resume then
    ["Start bullet points with strong action verbs (Led, Developed, Achieved, etc.)"] else [])
  ++ (if 3 < (missingKeywordsOf resume jobTitle jobDescription jobRequirements).length then
    ["Consider incorporating these keywords: "
      ++ String.intercalate ", " ((missingKeywordsOf resume jobTitle jobDescription jobRequirements).take 4)]
   else [])

/-- The `metricsSuggestions` candidates, in source order (capped on return). -/
def metricsSuggestionsOf (jobTitle jobDescription : String)
    (jobRequirements : List String) : List String :=
  let jobText := jobTextOf jobTitle jobDescription jobRequirements
  (if jsIncludes jobText "team" || jsIncludes jobText "lead" then
    ["Add team size you\x27ve managed or collaborated with (e.g., \"Led a team of 8 engineers\")"]
   else [])
  ++ (if jsIncludes jobText "performance" || jsIncludes jobText "optimization" then
    ["Include performance improvements (e.g., \"Improved load time by 40%\")"] else [])
  ++ (if jsIncludes jobText "revenue" || jsIncludes jobText "cost" then
    ["Add business impact metrics (e.g., \"Reduced costs by $50K annually\")"] else [])
  ++ (if jsIncludes jobText "user" || jsIncludes jobText "customer" then
    ["Include user/customer impact (e.g., \"Served 100K+ daily active users\")"] else [])
  ++ (if jsIncludes jobText "project" || jsIncludes jobText "delivery" then
    ["Mention project delivery metrics (e.g., \"Delivered 15 features ahead of schedule\")"] else [])

/-- Local `overallFeedback`: the four-band narrative keyed by the clamped score. -/
def overallFeedbackOf (resume : ParsedResume) (jobTitle jobDescription : String)
    (jobRequirements : List String) : String :=
  if 80 ≤ resumeScoreOf resume jobTitle jobDescription jobRequirements then
    "Excellent match! Your resume aligns very well with this position. Focus on tailoring your cover letter to stand out."
  else if 60 ≤ resumeScoreOf resume jobTitle jobDescription jobRequirements then
    "Good match with room for improvement. Consider highlighting the matching skills more prominently and addressing the missing keywords."
  else if 40 ≤ resumeScoreOf resume jobTitle jobDescription jobRequirements then
    "Moderate match. You may need to emphasize transferable skills and add more relevant keywords to strengthen your application."
  else
    "This role may require significant resume tailoring. Focus on highlighting any relevant experience and consider gaining the missing skills."

def analyzeResumeForJob (resume : ParsedResume) (jobTitle jobDescription : String)
    (jobRequirements : List String) : ResumeAnalysis :=
  { resumeScore := resumeScoreOf resume jobTitle jobDescription jobRequirements
    matchingKeywords := (setDedup (matchingKeywordsOf resume jobTitle jobDescription jobRequirements)).take 10
    missingKeywords := (setDedup (missingKeywordsOf resume jobTitle jobDescription jobRequirements)).take 8
    matchingSkills := setDedup (matchingSkillsOf resume jobTitle jobDescription jobRequirements)
    missingSkills := (setDedup (missingSkillsOf resume jobTitle jobDescription jobRequirements)).take 6
    strengthsFound := (strengthsFoundOf resume jobTitle jobDescription jobRequirements).take 4
    improvementAreas := (improvementAreasOf resume jobTitle jobDescription jobRequirements).take 4
    metricsSuggestions := (metricsSuggestionsOf jobTitle jobDescription jobRequirements).take 3
    keywordDensity := jsRound (keywordMatchRatioOf resume jobTitle jobDescription jobRequirements * 100)
    overallFeedback := overallFeedbackOf resume jobTitle jobDescription jobRequirements }

/-! ## `analyzeLinkedInProfile` (the Profile Completeness Scorer) -/

structure LinkedInAnalysis where
  linkedinScore : ℤ
  headlineSuggestion : String
  summaryFeedback : List String
  endorsementSuggestions : List String
  skillGaps : List String
  improvements : List String
  overallFeedback : String
  deriving DecidableEq, Repr

/-- Local `hasProfile`: the URL is non-empty and non-blank
(`linkedinUrl && linkedinUrl.trim().length > 0`). -/
def hasProfileOf (linkedinUrl : String) : Bool :=
  (linkedinUrl != "") && ((jsTrim linkedinUrl).length != 0)

/-- Local `urlIndicators`: the two profile-completeness indicators of lines 313-316. -/
def urlIndicatorsOf (linkedinUrl : String) : List Bool :=
  [jsIncludes (jsToLower linkedinUrl) "/in/",
   decide (30 < (jsToLower linkedinUrl).length)]

/-- Local `linkedinScore` (lines 309-324): base 50; if a profile is present,
`min(100, 50 + 25·countTrue(urlIndicators))`, then averaged (rounded)
with the resume score when a resume analysis is supplied. -/
def linkedinScoreOf (linkedinUrl : String) (resumeAnalysis : Option ResumeAnalysis) : ℤ :=
  if hasProfileOf linkedinUrl then
    let base : ℤ := min 100 (50 + ((urlIndicatorsOf linkedinUrl).filter id).length * 25)
    match resumeAnalysis with
    | some ra => jsRound (((base : ℚ) + (ra.resumeScore : ℚ)) / 2)
    | none => base
  else 50

/-- Local `jobRole`: the last two space-separated words of the job title. -/
def jobRoleOf (jobTitle : String) : String :=
  let parts := jobTitle.splitOn " "
  String.intercalate " " (parts.drop (parts.length - 2))

/-- Local `headlineSuggestion` (lines 327-334). -/
def headlineSuggestionOf (jobTitle : String) (resumeAnalysis : Option ResumeAnalysis) : String :=
  match resumeAnalysis with
  | some ra =>
    if 0 < ra.matchingSkills.length then
      jobRoleOf jobTitle ++ " | " ++ String.intercalate " & " (ra.matchingSkills.take 2)
        ++ " | Open to Opportunities"
    else jobRoleOf jobTitle ++ " | Experienced Professional | Always Learning"
  | none => jobRoleOf jobTitle ++ " | Experienced Professional | Always Learning"

/-- Local `summaryFeedback` candidates (lines 337-345, capped to 3 on return). -/
def summaryFeedbackOf (linkedinUrl jobTitle : String)
    (resumeAnalysis : Option ResumeAnalysis) : List String :=
  if !hasProfileOf linkedinUrl then
    ["Create or complete your LinkedIn profile with a professional photo and comprehensive headline",
     "Add a compelling summary highlighting your career goals and key achievements"]
  else
    ["Update your headline to match this role: " ++ headlineSuggestionOf jobTitle resumeAnalysis,
     "Include specific accomplishments and metrics in your summary section",
     "Mention industry experience and key projects you\x27ve worked on"]

/-- Local `overallFeedback` (lines 367-376): missing-profile narrative first,
then the score-keyed bands. -/
def linkedinFeedbackOf (linkedinUrl : String) (resumeAnalysis : Option ResumeAnalysis) : String :=
  if !hasProfileOf linkedinUrl then
    "LinkedIn profile is missing or incomplete. A complete profile significantly improves your visibility to recruiters."
  else if 80 ≤ linkedinScoreOf linkedinUrl resumeAnalysis then
    "Excellent LinkedIn profile! Keep it updated and consistent with your resume."
  else if 60 ≤ linkedinScoreOf linkedinUrl resumeAnalysis then
    "Good LinkedIn foundation. Add more specific accomplishments and get skill endorsements."
  else
    "Your LinkedIn profile needs attention. Update it with recent experience and stronger positioning."

def analyzeLinkedInProfile (linkedinUrl jobTitle jobDescription : String)
    (jobRequirements : List String) (resumeAnalysis : Option ResumeAnalysis) : LinkedInAnalysis :=
  { linkedinScore := linkedinScoreOf linkedinUrl resumeAnalysis
    headlineSuggestion := headlineSuggestionOf jobTitle resumeAnalysis
    summaryFeedback := (summaryFeedbackOf linkedinUrl jobTitle resumeAnalysis).take 3
    endorsementSuggestions := setDedup
      (match resumeAnalysis with
       | some ra => ra.matchingSkills.take 5
       | none => (jobSkillsOf jobTitle jobDescription jobRequirements).take 5)
    skillGaps := setDedup
      (match resumeAnalysis with
       | some ra => ra.missingSkills.take 4
       | none => (jobSkillsOf jobTitle jobDescription jobRequirements).take 4)
    improvements :=
      ["Add detailed job descriptions with quantifiable results",
       "Get endorsements for skills matching this job role",
       "Ask colleagues for recommendations highlighting your strengths",
       "Include any relevant certifications and courses",
       "Show volunteer work or open source contributions if applicable"]
    overallFeedback := linkedinFeedbackOf linkedinUrl resumeAnalysis }

/-- The combined keyword vocabulary consulted by `extractKeywordsFromText`. -/
def ALL_KEYWORD_TERMS : List String := TECH_SKILLS ++ JOB_TERMS

/-! ## Support lemmas -/

/-- Sanity check of the metric scanner on a text exercising four patterns:
matches are collected per pattern in `METRICS_PATTERNS` order. -/
theorem extractMetrics_sample :
    (parseResumeText "served 100+ users over 3 years, $1,500 saved, 40% faster").metrics
      = ["40%", "$1,500", "100+ users", "3 years"] := by decide

/-- Sanity check of the completeness indicators: a standard profile URL with
the "/in/" segment and more than 30 characters scores the full 100. -/
theorem linkedin_full_url_sample :
    (analyzeLinkedInProfile "https://www.linkedin.com/in/someone" "x" "y" [] none).linkedinScore
      = 100 := by decide

theorem jsRound_intCast (n : ℤ) : jsRound (n : ℚ) = n := by
  unfold jsRound
  rw [Int.floor_int_add]
  have h0 : ⌊(1/2 : ℚ)⌋ = 0 := by
    rw [Int.floor_eq_zero_iff]
    constructor <;> norm_num
  rw [h0, add_zero]

theorem jsRound_mono {p q : ℚ} (h : p ≤ q) : jsRound p ≤ jsRound q :=
  Int.floor_mono (by linarith)

theorem jsRound_nonneg {q : ℚ} (h : 0 ≤ q) : 0 ≤ jsRound q :=
  Int.le_floor.mpr (by push_cast; linarith)

theorem jsRound_le_of_le {q : ℚ} {c : ℤ} (h : q ≤ (c : ℚ)) : jsRound q ≤ c := by
  have hlt : jsRound q < c + 1 := Int.floor_lt.mpr (by push_cast; linarith)
  omega

theorem setDedup_go_nodup (l acc : List String) (h : acc.Nodup) :
    (l.foldl (fun a x => if x ∈ a then a else a ++ [x]) acc).Nodup := by
  induction l generalizing acc with
  | nil => simpa using h
  | cons x xs ih =>
    simp only [List.foldl_cons]
    by_cases hx : x ∈ acc
    · rw [if_pos hx]; exact ih acc h
    · rw [if_neg hx]
      refine ih _ (List.nodup_append.mpr ⟨h, List.nodup_singleton x, ?_⟩)
      intro a ha hax
      rw [List.mem_singleton] at hax
      exact hx (hax ▸ ha)

theorem setDedup_nodup (l : List String) : (setDedup l).Nodup :=
  setDedup_go_nodup l [] List.nodup_nil

theorem mem_setDedup_go (l acc : List String) (y : String) :
    y ∈ l.foldl (fun a x => if x ∈ a then a else a ++ [x]) acc ↔ y ∈ acc ∨ y ∈ l := by
  induction l generalizing acc with
  | nil => simp
  | cons x xs ih =>
    simp only [List.foldl_cons]
    by_cases hx : x ∈ acc
    · rw [if_pos hx, ih]
      simp only [List.mem_cons]
      constructor
      · rintro (h | h)
        · exact Or.inl h
        · exact Or.inr (Or.inr h)
      · rintro (h | rfl | h)
        · exact Or.inl h
        · exact Or.inl hx
        · exact Or.inr h
    · rw [if_neg hx, ih]
      simp only [List.mem_append, List.mem_singleton, List.mem_cons]
      tauto

theorem mem_setDedup (l : List String) (y : String) : y ∈ setDedup l ↔ y ∈ l := by
  unfold setDedup
  rw [mem_setDedup_go]
  simp

theorem setDedup_go_eq (l : List String) : ∀ acc : List String, (acc ++ l).Nodup →
    l.foldl (fun a x => if x ∈ a then a else a ++ [x]) acc = acc ++ l := by
  induction l with
  | nil => intro acc _; simp
  | cons x xs ih =>
    intro acc h
    have hx : x ∉ acc := by
      intro hmem
      exact (List.nodup_append.mp h).2.2 hmem (List.mem_cons_self x xs)
    simp only [List.foldl_cons, if_neg hx]
    have h2 : ((acc ++ [x]) ++ xs).Nodup := by simpa [List.append_assoc] using h
    rw [ih (acc ++ [x]) h2]
    simp

theorem setDedup_eq_of_nodup {l : List String} (h : l.Nodup) : setDedup l = l := by
  unfold setDedup
  simpa using setDedup_go_eq l [] (by simpa using h)

/-- Every keyword-vocabulary term is already lowercase, so lowering it is
the identity (verified by computation over the fixed tables). -/
theorem allKeywordTerms_lower_fixed : ∀ s ∈ ALL_KEYWORD_TERMS, jsToLower s = s := by decide

theorem extractKeywordsFromText_nodup (t : String) :
    (extractKeywordsFromText t).Nodup := setDedup_nodup _

theorem mem_extractKeywordsFromText {t : String} {x : String}
    (h : x ∈ extractKeywordsFromText t) : x ∈ ALL_KEYWORD_TERMS := by
  unfold extractKeywordsFromText at h
  rw [mem_setDedup] at h
  rcases List.mem_append.mp h with h | h
  · exact List.mem_append.mpr (Or.inl (List.mem_of_mem_filter h))
  · exact List.mem_append.mpr (Or.inr (List.mem_of_mem_filter h))

/-- The matching-keyword list never outgrows the job-keyword list: both are
deduplicated selections from the same lowercase vocabulary, and the filter
condition collapses to plain membership. -/
theorem matchingKeywords_length_le (resume : ParsedResume) (jobTitle jobDescription : String)
    (jobRequirements : List String) :
    (matchingKeywordsOf resume jobTitle jobDescription jobRequirements).length
      ≤ (jobKeywordsOf jobTitle jobDescription jobRequirements).length := by
  have hsub : matchingKeywordsOf resume jobTitle jobDescription jobRequirements
      ⊆ jobKeywordsOf jobTitle jobDescription jobRequirements := by
    intro x hx
    unfold matchingKeywordsOf at hx
    have hmem : x ∈ resumeKeywordsOf resume := List.mem_of_mem_filter hx
    have hcond := List.of_mem_filter hx
    rw [List.any_eq_true] at hcond
    obtain ⟨jk, hjk, hbeq⟩ := hcond
    have heq : jsToLower jk = jsToLower x := eq_of_beq hbeq
    rw [allKeywordTerms_lower_fixed jk (mem_extractKeywordsFromText hjk),
        allKeywordTerms_lower_fixed x (mem_extractKeywordsFromText hmem)] at heq
    rwa [heq] at hjk
  have hnd : (matchingKeywordsOf resume jobTitle jobDescription jobRequirements).Nodup :=
    (extractKeywordsFromText_nodup _).filter _
  exact (List.subperm_of_subset hnd hsub).length_le

/-! ## Claim theorems -/

/-- Claim C2: for every input to the Match Scorer, the returned lists respect
their caps: at most 10 matching keywords, 8 missing keywords, 6 missing
skills, 4 strengths, 4 improvement areas and 3 metrics suggestions. -/
theorem analysis_cap_invariants (resume : ParsedResume) (jobTitle jobDescription : String)
    (jobRequirements : List String) :
    (analyzeResumeForJob resume jobTitle jobDescription jobRequirements).matchingKeywords.length ≤ 10
      ∧ (analyzeResumeForJob resume jobTitle jobDescription jobRequirements).missingKeywords.length ≤ 8
      ∧ (analyzeResumeForJob resume jobTitle jobDescription jobRequirements).missingSkills.length ≤ 6
      ∧ (analyzeResumeForJob resume jobTitle jobDescription jobRequirements).strengthsFound.length ≤ 4
      ∧ (analyzeResumeForJob resume jobTitle jobDescription jobRequirements).improvementAreas.length ≤ 4
      ∧ (analyzeResumeForJob resume jobTitle jobDescription jobRequirements).metricsSuggestions.length ≤ 3 := by
  refine ⟨?_, ?_, ?_, ?_, ?_, ?_⟩ <;>
    · simp only [analyzeResumeForJob, List.length_take]
      omega

/-- Claim C3: the Match Scorer's resumeScore and keywordDensity always lie
in [0, 100]. -/
theorem score_and_density_bounds (resume : ParsedResume) (jobTitle jobDescription : String)
    (jobRequirements : List String) :
    0 ≤ (analyzeResumeForJob resume jobTitle jobDescription jobRequirements).resumeScore
      ∧ (analyzeResumeForJob resume jobTitle jobDescription jobRequirements).resumeScore ≤ 100
      ∧ 0 ≤ (analyzeResumeForJob resume jobTitle jobDescription jobRequirements).keywordDensity
      ∧ (analyzeResumeForJob resume jobTitle jobDescription jobRequirements).keywordDensity ≤ 100 := by
  have hk0 : 0 ≤ keywordMatchRatioOf resume jobTitle jobDescription jobRequirements := by
    unfold keywordMatchRatioOf
    split
    · positivity
    · norm_num
  have hk1 : keywordMatchRatioOf resume jobTitle jobDescription jobRequirements ≤ 1 := by
    unfold keywordMatchRatioOf
    split
    next h =>
      rw [div_le_one (by exact_mod_cast h)]
      exact_mod_cast matchingKeywords_length_le resume jobTitle jobDescription jobRequirements
    next => norm_num
  refine ⟨?_, ?_, ?_, ?_⟩
  · exact le_max_left 0 _
  · exact max_le (by norm_num) (min_le_left _ _)
  · exact jsRound_nonneg (by positivity)
  · exact jsRound_le_of_le (by push_cast; nlinarith)

/-- Claim C6: skill extraction is case-insensitive substring containment over
the fixed vocabulary: a term is extracted iff its lowercase form occurs in
the lowercased input; in particular the two mixed-case example inputs yield
identical skill lists. -/
theorem extract_case_insensitivity :
    (∀ (text s : String), s ∈ (parseResumeText text).skills ↔
        s ∈ TECH_SKILLS ∧ jsIncludes (jsToLower text) (jsToLower s) = true)
      ∧ (parseResumeText "I use REACT and React.js").skills
          = (parseResumeText "i use react and react.js").skills := by
  constructor
  · intro text s
    show s ∈ skillsOfText (jsToLower text) ↔ _
    unfold skillsOfText
    rw [List.mem_filter]
  · decide

/-- Claim C10: the multiplier metric pattern is case-sensitive while the
phrase patterns are case-insensitive: a text whose only metric candidate is
an uppercase multiplier yields no metrics, and the lowercase variant yields
exactly one. -/
theorem metrics_multiplier_case_sensitivity :
    (parseResumeText "grew 10X").metrics = []
      ∧ (parseResumeText "grew 10x").metrics = ["10x"] := by
  exact ⟨by decide, by decide⟩

/-- Claim C1: the Match Scorer's score equals
`round(skillRatio*40 + keywordRatio*30 + (hasMetrics?15:0) + (hasActionVerbs?10:0)
+ (certifications nonempty?5:0))` clamped to [0,100], with `skillRatio` the
matching/target skill ratio (0.5 when no target skills), `keywordRatio` the
analogous keyword ratio, `hasMetrics` iff the metrics sequence is nonempty and
`hasActionVerbs` iff some action verb occurs in the lowercased raw text.
The profile's skill collection is a set (duplicate-free), as produced by the
Text Extractor. -/
theorem match_score_formula (resume : ParsedResume) (jobTitle jobDescription : String)
    (jobRequirements : List String) (hnd : resume.skills.Nodup) :
    (analyzeResumeForJob resume jobTitle jobDescription jobRequirements).resumeScore =
      max 0 (min 100 (jsRound (
        (if jobSkillsOf jobTitle jobDescription jobRequirements ≠ [] then
          (((analyzeResumeForJob resume jobTitle jobDescription jobRequirements).matchingSkills.length : ℚ)
            / ((jobSkillsOf jobTitle jobDescription jobRequirements).length : ℚ))
         else 1/2) * 40
        + (if jobKeywordsOf jobTitle jobDescription jobRequirements ≠ [] then
            (((matchingKeywordsOf resume jobTitle jobDescription jobRequirements).length : ℚ)
              / ((jobKeywordsOf jobTitle jobDescription jobRequirements).length : ℚ))
           else 1/2) * 30
        + (if resume.metrics ≠ [] then 15 else 0)
        + (if ∃ v ∈ ACTION_VERBS, jsIncludes (jsToLower resume.rawText) v = true then 10 else 0)
        + (if resume.certifications ≠ [] then 5 else 0)))) := by
  have hms : (analyzeResumeForJob resume jobTitle jobDescription jobRequirements).matchingSkills
      = matchingSkillsOf resume jobTitle jobDescription jobRequirements := by
    show setDedup _ = _
    exact setDedup_eq_of_nodup (hnd.filter _)
  rw [hms]
  show resumeScoreOf resume jobTitle jobDescription jobRequirements = _
  unfold resumeScoreOf rawResumeScoreOf skillMatchRatioOf keywordMatchRatioOf
    hasActionVerbsOf resumeTextOf
  simp only [List.length_pos, List.any_eq_true]

/-- Claim C1 witness: the formula instantiated at a concrete profile and target. -/
theorem match_score_formula_witness :
    (analyzeResumeForJob ⟨"", [], [], [], [], [], []⟩ "python" "" []).resumeScore =
      max 0 (min 100 (jsRound (
        (if jobSkillsOf "python" "" [] ≠ [] then
          (((analyzeResumeForJob ⟨"", [], [], [], [], [], []⟩ "python" "" []).matchingSkills.length : ℚ)
            / ((jobSkillsOf "python" "" []).length : ℚ))
         else 1/2) * 40
        + (if jobKeywordsOf "python" "" [] ≠ [] then
            (((matchingKeywordsOf ⟨"", [], [], [], [], [], []⟩ "python" "" []).length : ℚ)
              / ((jobKeywordsOf "python" "" []).length : ℚ))
           else 1/2) * 30
        + (if ([] : List String) ≠ [] then 15 else 0)
        + (if ∃ v ∈ ACTION_VERBS, jsIncludes (jsToLower "") v = true then 10 else 0)
        + (if ([] : List String) ≠ [] then 5 else 0)))) :=
  match_score_formula ⟨"", [], [], [], [], [], []⟩ "python" "" [] (by decide)

/-- Claim C5: extraction of the empty string yields the all-empty profile,
and scoring against an empty target (empty title, description and
requirements) finds no target skills or keywords, so both ratios default
to 0.5 and the score is the 35-point floor plus the profile-only signals. -/
theorem empty_input_graceful_degradation :
    parseResumeText "" =
      ({ rawText := "", skills := [], experience := [], education := [],
         certifications := [], keywords := [], metrics := [] } : ParsedResume)
      ∧ jobSkillsOf "" "" [] = []
      ∧ jobKeywordsOf "" "" [] = []
      ∧ ∀ resume : ParsedResume,
          (analyzeResumeForJob resume "" "" []).resumeScore =
            max 0 (min 100 (jsRound ((1/2 : ℚ) * 40 + (1/2 : ℚ) * 30
              + (if resume.metrics ≠ [] then 15 else 0)
              + (if ∃ v ∈ ACTION_VERBS, jsIncludes (jsToLower resume.rawText) v = true then 10 else 0)
              + (if resume.certifications ≠ [] then 5 else 0)))) := by
  refine ⟨by decide, by decide, by decide, ?_⟩
  intro resume
  show resumeScoreOf resume "" "" [] = _
  unfold resumeScoreOf rawResumeScoreOf skillMatchRatioOf keywordMatchRatioOf
    hasActionVerbsOf resumeTextOf
  rw [show jobSkillsOf "" "" [] = [] from by decide,
      show jobKeywordsOf "" "" [] = [] from by decide]
  simp only [List.length_nil, lt_self_iff_false, if_false, List.length_pos, List.any_eq_true]

/-- Claim C4: with a fixed nonempty target-skill set, extending the profile's
skill list by one skill that matches a target skill (case-insensitively) and
was not already matched never decreases the score. -/
theorem score_monotone_in_matching_skill (resume : ParsedResume)
    (jobTitle jobDescription : String) (jobRequirements : List String) (s : String)
    (hne : jobSkillsOf jobTitle jobDescription jobRequirements ≠ [])
    (hmatch : ∃ js ∈ jobSkillsOf jobTitle jobDescription jobRequirements,
      jsToLower js = jsToLower s)
    (_hnew : ∀ rs ∈ resume.skills, jsToLower rs ≠ jsToLower s) :
    (analyzeResumeForJob { resume with skills := resume.skills ++ [s] }
        jobTitle jobDescription jobRequirements).resumeScore
      ≥ (analyzeResumeForJob resume jobTitle jobDescription jobRequirements).resumeScore := by
  rw [ge_iff_le]
  show resumeScoreOf resume jobTitle jobDescription jobRequirements
    ≤ resumeScoreOf { resume with skills := resume.skills ++ [s] } jobTitle jobDescription jobRequirements
  have hms : matchingSkillsOf { resume with skills := resume.skills ++ [s] }
      jobTitle jobDescription jobRequirements
      = matchingSkillsOf resume jobTitle jobDescription jobRequirements ++ [s] := by
    unfold matchingSkillsOf
    show (resume.skills ++ [s]).filter _ = _
    rw [List.filter_append]
    congr 1
    have hps : ((jobSkillsOf jobTitle jobDescription jobRequirements).any fun js =>
        jsToLower js == jsToLower s) = true := by
      rw [List.any_eq_true]
      obtain ⟨js, hjs, heq⟩ := hmatch
      exact ⟨js, hjs, beq_of_eq heq⟩
    simp [List.filter, hps]
  have hT : 0 < (jobSkillsOf jobTitle jobDescription jobRequirements).length :=
    List.length_pos.mpr hne
  have hsr : skillMatchRatioOf resume jobTitle jobDescription jobRequirements
      ≤ skillMatchRatioOf { resume with skills := resume.skills ++ [s] }
          jobTitle jobDescription jobRequirements := by
    unfold skillMatchRatioOf
    rw [if_pos hT, if_pos hT, hms, List.length_append]
    gcongr
    exact Nat.le_add_right _ _
  have hkr : keywordMatchRatioOf { resume with skills := resume.skills ++ [s] }
      jobTitle jobDescription jobRequirements
      = keywordMatchRatioOf resume jobTitle jobDescription jobRequirements := rfl
  have hmet : ({ resume with skills := resume.skills ++ [s] } : ParsedResume).metrics
      = resume.metrics := rfl
  have hcert : ({ resume with skills := resume.skills ++ [s] } : ParsedResume).certifications
      = resume.certifications := rfl
  have hverbs : hasActionVerbsOf { resume with skills := resume.skills ++ [s] }
      = hasActionVerbsOf resume := rfl
  unfold resumeScoreOf
  refine max_le_max (le_refl 0) (min_le_min (le_refl 100) ?_)
  unfold rawResumeScoreOf
  rw [hkr, hmet, hcert, hverbs]
  apply jsRound_mono
  nlinarith [hsr]

/-- Claim C4 witness: the monotonicity instance at a concrete profile,
skill and target. -/
theorem score_monotone_in_matching_skill_witness :
    (analyzeResumeForJob { (⟨"", [], [], [], [], [], []⟩ : ParsedResume) with
        skills := ([] : List String) ++ ["python"] } "python" "" []).resumeScore
      ≥ (analyzeResumeForJob ⟨"", [], [], [], [], [], []⟩ "python" "" []).resumeScore :=
  score_monotone_in_matching_skill ⟨"", [], [], [], [], [], []⟩ "python" "" [] "python"
    (by decide) (by decide) (by decide)

/-- Claim C7: with an empty or whitespace-only profile reference, the Profile
Completeness Scorer reports score 50 and the fixed missing-profile narrative,
regardless of the target and of any supplied resume analysis. -/
theorem missing_profile_floor (linkedinUrl jobTitle jobDescription : String)
    (jobRequirements : List String) (resumeAnalysis : Option ResumeAnalysis)
    (h : jsTrim linkedinUrl = "") :
    (analyzeLinkedInProfile linkedinUrl jobTitle jobDescription jobRequirements
        resumeAnalysis).linkedinScore = 50
      ∧ (analyzeLinkedInProfile linkedinUrl jobTitle jobDescription jobRequirements
          resumeAnalysis).overallFeedback =
        "LinkedIn profile is missing or incomplete. A complete profile significantly improves your visibility to recruiters." := by
  have hp : hasProfileOf linkedinUrl = false := by
    unfold hasProfileOf
    rw [h]
    simp
  constructor
  · show linkedinScoreOf linkedinUrl resumeAnalysis = 50
    unfold linkedinScoreOf
    rw [hp]
    simp
  · show linkedinFeedbackOf linkedinUrl resumeAnalysis = _
    unfold linkedinFeedbackOf
    rw [hp]
    simp

/-- Claim C7 witness: a whitespace-only reference with a strong resume
analysis supplied still yields score 50 and the missing-profile narrative. -/
theorem missing_profile_floor_witness :
    (analyzeLinkedInProfile "   " "Engineer" "desc" ["python"]
        (some ⟨95, [], [], [], [], [], [], [], 80, ""⟩)).linkedinScore = 50
      ∧ (analyzeLinkedInProfile "   " "Engineer" "desc" ["python"]
          (some ⟨95, [], [], [], [], [], [], [], 80, ""⟩)).overallFeedback =
        "LinkedIn profile is missing or incomplete. A complete profile significantly improves your visibility to recruiters." :=
  missing_profile_floor "   " "Engineer" "desc" ["python"]
    (some ⟨95, [], [], [], [], [], [], [], 80, ""⟩) (by decide)

theorem string_eq_empty_of_length_eq_zero {s : String} (h : s.length = 0) : s = "" := by
  cases s with
  | mk data =>
    have hd : data = [] := List.length_eq_zero.mp h
    rw [hd]

/-- Lowercasing does not change the length of a string. -/
theorem jsToLower_length (s : String) : (jsToLower s).length = s.length := by
  cases s with
  | mk data => simp [jsToLower, String.length]

/-- The completeness count of the embedded indicator list, expressed as the
claim's count of true indicators (lowercased reference contains "/in/";
reference length exceeds 30). -/
theorem urlIndicators_count (linkedinUrl : String) :
    ((((urlIndicatorsOf linkedinUrl).filter id).length : ℤ) * 25)
      = 25 * ((if jsIncludes (jsToLower linkedinUrl) "/in/" = true then 1 else 0)
          + (if 30 < linkedinUrl.length then 1 else 0)) := by
  unfold urlIndicatorsOf
  rw [show decide (30 < (jsToLower linkedinUrl).length)
      = decide (30 < linkedinUrl.length) from by rw [jsToLower_length]]
  by_cases h1 : jsIncludes (jsToLower linkedinUrl) "/in/" = true
  all_goals by_cases h2 : 30 < linkedinUrl.length
  all_goals simp [h1, h2, List.filter]

/-- Claim C8: with a non-blank profile reference the score is
`min(100, 50 + 25·count)` where `count` counts the true indicators among
(lowercased reference contains "/in/") and (reference length exceeds 30);
supplying a resume analysis replaces it by the rounded average with the
resume score. -/
theorem profile_present_score_formula (linkedinUrl jobTitle jobDescription : String)
    (jobRequirements : List String) (ra : ResumeAnalysis)
    (h : jsTrim linkedinUrl ≠ "") :
    (analyzeLinkedInProfile linkedinUrl jobTitle jobDescription jobRequirements none).linkedinScore
      = min 100 (50 + 25 * ((if jsIncludes (jsToLower linkedinUrl) "/in/" = true then 1 else 0)
          + (if 30 < linkedinUrl.length then 1 else 0)))
    ∧ (analyzeLinkedInProfile linkedinUrl jobTitle jobDescription jobRequirements
          (some ra)).linkedinScore
      = jsRound ((((min 100 (50 + 25 * ((if jsIncludes (jsToLower linkedinUrl) "/in/" = true then 1 else 0)
          + (if 30 < linkedinUrl.length then 1 else 0))) : ℤ) : ℚ) + (ra.resumeScore : ℚ)) / 2) := by
  have hu : linkedinUrl ≠ "" := by
    intro e
    rw [e] at h
    exact h rfl
  have hl : (jsTrim linkedinUrl).length ≠ 0 := fun e => h (string_eq_empty_of_length_eq_zero e)
  have hp : hasProfileOf linkedinUrl = true := by
    unfold hasProfileOf
    rw [Bool.and_eq_true, bne_iff_ne, bne_iff_ne]
    exact ⟨hu, hl⟩
  have hbase : (min 100 (50 + (((urlIndicatorsOf linkedinUrl).filter id).length : ℤ) * 25) : ℤ)
      = min 100 (50 + 25 * ((if jsIncludes (jsToLower linkedinUrl) "/in/" = true then 1 else 0)
          + (if 30 < linkedinUrl.length then 1 else 0))) := by
    rw [urlIndicators_count]
  constructor
  · show linkedinScoreOf linkedinUrl none = _
    unfold linkedinScoreOf
    rw [hp]
    simpa using hbase
  · show linkedinScoreOf linkedinUrl (some ra) = _
    unfold linkedinScoreOf
    rw [hp]
    simp only [if_true]
    rw [hbase]

/-- Claim C8 witness: the formula instantiated at a standard profile URL and
a concrete resume analysis. -/
theorem profile_present_score_formula_witness :
    (analyzeLinkedInProfile "https://www.linkedin.com/in/someone" "t" "d" [] none).linkedinScore
      = min 100 (50 + 25 * ((if jsIncludes (jsToLower "https://www.linkedin.com/in/someone") "/in/" = true then 1 else 0)
          + (if 30 < ("https://www.linkedin.com/in/someone" : String).length then 1 else 0)))
    ∧ (analyzeLinkedInProfile "https://www.linkedin.com/in/someone" "t" "d" []
          (some ⟨70, [], [], [], [], [], [], [], 0, ""⟩)).linkedinScore
      = jsRound ((((min 100 (50 + 25 * ((if jsIncludes (jsToLower "https://www.linkedin.com/in/someone") "/in/" = true then 1 else 0)
          + (if 30 < ("https://www.linkedin.com/in/someone" : String).length then 1 else 0))) : ℤ) : ℚ)
        + (((⟨70, [], [], [], [], [], [], [], 0, ""⟩ : ResumeAnalysis).resumeScore : ℤ) : ℚ)) / 2) :=
  profile_present_score_formula "https://www.linkedin.com/in/someone" "t" "d" []
    ⟨70, [], [], [], [], [], [], [], 0, ""⟩ (by decide)

/-- Claim C9 counterexample: the profile summary is NOT keyed on a four-tier
band structure mirroring the Match Scorer's (which distinguishes scores in
[40,60) from scores below 40): two profile-present calls, one scoring 50 and
one scoring 25, receive the SAME narrative, so no distinct "≥ 40" tier
exists. -/
theorem linkedin_four_tier_counterexample :
    hasProfileOf "myprofile" = true
      ∧ (analyzeLinkedInProfile "myprofile" "title" "desc" []
          (some ⟨50, [], [], [], [], [], [], [], 0, ""⟩)).linkedinScore = 50
      ∧ (analyzeLinkedInProfile "myprofile" "title" "desc" []
          (some ⟨0, [], [], [], [], [], [], [], 0, ""⟩)).linkedinScore = 25
      ∧ (analyzeLinkedInProfile "myprofile" "title" "desc" []
          (some ⟨50, [], [], [], [], [], [], [], 0, ""⟩)).overallFeedback =
        (analyzeLinkedInProfile "myprofile" "title" "desc" []
          (some ⟨0, [], [], [], [], [], [], [], 0, ""⟩)).overallFeedback := by
  have hp : hasProfileOf "myprofile" = true := by decide
  have hbase : (min 100 (50 + (((urlIndicatorsOf "myprofile").filter id).length : ℤ) * 25) : ℤ)
      = 50 := by decide
  have hA : linkedinScoreOf "myprofile" (some ⟨50, [], [], [], [], [], [], [], 0, ""⟩) = 50 := by
    unfold linkedinScoreOf
    rw [hp]
    simp only [if_true]
    rw [hbase]
    rw [show ((((50 : ℤ) : ℚ) + (((⟨50, [], [], [], [], [], [], [], 0, ""⟩ :
        ResumeAnalysis).resumeScore : ℤ) : ℚ)) / 2) = ((50 : ℤ) : ℚ) from by push_cast; norm_num]
    exact jsRound_intCast 50
  have hB : linkedinScoreOf "myprofile" (some ⟨0, [], [], [], [], [], [], [], 0, ""⟩) = 25 := by
    unfold linkedinScoreOf
    rw [hp]
    simp only [if_true]
    rw [hbase]
    rw [show ((((50 : ℤ) : ℚ) + (((⟨0, [], [], [], [], [], [], [], 0, ""⟩ :
        ResumeAnalysis).resumeScore : ℤ) : ℚ)) / 2) = ((25 : ℤ) : ℚ) from by push_cast; norm_num]
    exact jsRound_intCast 25
  refine ⟨hp, hA, hB, ?_⟩
  show linkedinFeedbackOf "myprofile" _ = linkedinFeedbackOf "myprofile" _
  unfold linkedinFeedbackOf
  rw [hA, hB, hp]
  norm_num

/-- Claim C9 amended: the Profile Completeness Scorer's summary is selected
from a THREE-tier score-keyed narrative (score ≥ 80, ≥ 60, else), plus a
fixed missing-profile narrative returned whenever hasProfile is false, which
takes priority over all score bands. -/
theorem linkedin_feedback_bands (linkedinUrl jobTitle jobDescription : String)
    (jobRequirements : List String) (resumeAnalysis : Option ResumeAnalysis) :
    (analyzeLinkedInProfile linkedinUrl jobTitle jobDescription jobRequirements
        resumeAnalysis).overallFeedback =
      if hasProfileOf linkedinUrl = false then
        "LinkedIn profile is missing or incomplete. A complete profile significantly improves your visibility to recruiters."
      else if 80 ≤ (analyzeLinkedInProfile linkedinUrl jobTitle jobDescription jobRequirements
          resumeAnalysis).linkedinScore then
        "Excellent LinkedIn profile! Keep it updated and consistent with your resume."
      else if 60 ≤ (analyzeLinkedInProfile linkedinUrl jobTitle jobDescription jobRequirements
          resumeAnalysis).linkedinScore then
        "Good LinkedIn foundation. Add more specific accomplishments and get skill endorsements."
      else
        "Your LinkedIn profile needs attention. Update it with recent experience and stronger positioning." := by
  show linkedinFeedbackOf linkedinUrl resumeAnalysis = _
  unfold linkedinFeedbackOf
  simp only [Bool.not_eq_true']
  rfl
/-- Sanity check of the Match Scorer's term partitioning on the spec's
worked scenario: profile skills python and docker against a target naming
python, docker and kubernetes. -/
theorem match_scorer_scenario_terms :
    (analyzeResumeForJob (parseResumeText "python docker led 40% 3x improvement")
        "Senior Backend Engineer" "" ["python", "docker", "kubernetes"]).matchingSkills
      = ["python", "docker"]
      ∧ (analyzeResumeForJob (parseResumeText "python docker led 40% 3x improvement")
          "Senior Backend Engineer" "" ["python", "docker", "kubernetes"]).missingSkills
        = ["kubernetes"] := by
  exact ⟨by decide, by decide⟩


